import Mathlib

/-!
Shallow embedding of the eight Hugging Face task handler scripts under
src/components/camel-ai/camel-huggingface/.../tasks/ (automatic_speech_recognition.py,
chat.py, question_answering.py, summarization.py, text_classification.py,
text_to_image.py, text_to_speech.py, zero_shot_classification.py).

Each script defines a function handle(inputs) that short-circuits warmup calls
(content size zero), reads the "data" part as a string, decodes it, calls a
globally constructed inference pipeline, encodes the result into an Output, and
wraps any exception into a JSON error payload.

Modelling conventions:
- Python values that flow through the handlers are modelled by the inductive
  type PyVal (JSON-style values plus numpy arrays).
- A raised Python exception is modelled as an Except.error carrying the string
  str(e).  Where the exact CPython message text embeds quoted type names, the
  quotes are dropped; messages whose text the scripts themselves fix, such as
  the ValueError in zero_shot_classification.py and str of a KeyError, are kept
  exact.
- The opaque inference pipeline of each script is a parameter of the handler: a
  function of the current torch RNG seed state and the decoded arguments, which
  either returns a result value or raises.  torch.manual_seed(42) is modelled by
  passing 42 as the seed-state argument of the call; a handler that never seeds
  passes its ambient RNG state through.
- Each handler returns, besides the Output, the number of pipeline invocations
  it attempted, so that the never-invoked parts of the spec are statable.
- Output.add of json.dumps(v) is modelled by the part constructor OutPart.json v
  together with a serializability check (numpy arrays are not JSON
  serializable); Output.add of a plain string is OutPart.str; raw bytes are
  OutPart.bytes.
- The deployment-time placeholder values of the scripts (model id, sampling
  knobs and so on) are modelled as explicit configuration records, following
  section 9 of the design document.
-/

/-- A Python float, modelled as the exact decimal mant / 10 ^ exp.  The
handlers only move floats around, so exact decimals model every value the
claims mention while keeping equality kernel-computable. -/
structure Dec where
  mant : Int
  exp : Nat
deriving DecidableEq, Repr

instance decOfScientific : OfScientific Dec :=
  ⟨fun m s e => if s then ⟨(m : Int), e⟩ else ⟨(m : Int) * (10 : Int) ^ e, 0⟩⟩

/-- Numeric equality between a decimal and an integer. -/
def Dec.beqInt (d : Dec) (n : Int) : Bool := d.mant == n * (10 : Int) ^ d.exp

/-- Numeric equality between two decimals, by cross multiplication. -/
def Dec.beq (a b : Dec) : Bool :=
  a.mant * (10 : Int) ^ b.exp == b.mant * (10 : Int) ^ a.exp

/-- A numpy ndarray of float32 samples: a shape vector and the row-major flat
data.  The float32 values themselves are modelled as exact decimals. -/
structure NpArray where
  shape : List Nat
  data : List Dec
deriving DecidableEq, Repr

/-- Python values visible to the handlers: JSON-style values plus ndarrays. -/
inductive PyVal where
  | none : PyVal
  | bool (b : Bool) : PyVal
  | int (n : Int) : PyVal
  | float (d : Dec) : PyVal
  | str (s : String) : PyVal
  | list (xs : List PyVal) : PyVal
  | dict (kvs : List (String × PyVal)) : PyVal
  | nparr (a : NpArray) : PyVal
deriving Repr

/-- Constructor index, used to discriminate concrete values. -/
def PyVal.ctorIdx : PyVal → Nat
  | .none => 0
  | .bool _ => 1
  | .int _ => 2
  | .float _ => 3
  | .str _ => 4
  | .list _ => 5
  | .dict _ => 6
  | .nparr _ => 7

def PyVal.isList : PyVal → Bool
  | .list _ => true
  | _ => false

def PyVal.isNparr : PyVal → Bool
  | .nparr _ => true
  | _ => false

/-- Structural equality, modelling the Python == operator on the values that
appear here: numbers compare across int/bool/float, lists elementwise, dicts
by key lookup independent of order. -/
def pyEq : PyVal → PyVal → Bool
  | .none, .none => true
  | .bool x, .bool y => x == y
  | .bool x, .int y => (if x then (1 : Int) else 0) == y
  | .bool x, .float y => y.beqInt (if x then 1 else 0)
  | .int x, .bool y => x == (if y then (1 : Int) else 0)
  | .float x, .bool y => x.beqInt (if y then 1 else 0)
  | .int x, .int y => x == y
  | .int x, .float y => y.beqInt x
  | .float x, .int y => x.beqInt y
  | .float x, .float y => x.beq y
  | .str x, .str y => x == y
  | .list [], .list ys => ys.isEmpty
  | .list (x :: xs), .list [] => false
  | .list (x :: xs), .list (y :: ys) => pyEq x y && pyEq (.list xs) (.list ys)
  | .dict [], .dict ys => ys.isEmpty
  | .dict ((k, v) :: rest), .dict ys =>
      match ys.find? (fun kv2 => kv2.1 == k) with
      | some kv2 =>
          pyEq v kv2.2 && pyEq (.dict rest) (.dict (ys.filter (fun kv2 => kv2.1 != k)))
      | _ => false
  | _, _ => false
termination_by a _ => sizeOf a
decreasing_by
  all_goals simp only [PyVal.list.sizeOf_spec, PyVal.dict.sizeOf_spec,
    List.cons.sizeOf_spec, Prod.mk.sizeOf_spec]
  all_goals omega

/-- Check that a value contains no ndarray, hence json.dumps succeeds. -/
def PyVal.serializable : PyVal → Bool
  | .nparr _ => false
  | .list [] => true
  | .list (x :: xs) => PyVal.serializable x && PyVal.serializable (.list xs)
  | .dict [] => true
  | .dict ((_, v) :: kvs) => PyVal.serializable v && PyVal.serializable (.dict kvs)
  | _ => true
termination_by v => sizeOf v
decreasing_by
  all_goals simp only [PyVal.list.sizeOf_spec, PyVal.dict.sizeOf_spec,
    List.cons.sizeOf_spec, Prod.mk.sizeOf_spec]
  all_goals omega

/-- Python truthiness of a value; raises for multi-element ndarrays the way
numpy does. -/
def pyTruthy : PyVal → Except String Bool
  | .none => .ok false
  | .bool b => .ok b
  | .int n => .ok (n != 0)
  | .float d => .ok (d.mant != 0)
  | .str s => .ok (s != "")
  | .list xs => .ok (!xs.isEmpty)
  | .dict kvs => .ok (!kvs.isEmpty)
  | .nparr a =>
      if a.data.length == 1 then .ok ((a.data.headD ⟨0, 0⟩).mant != 0)
      else .error "The truth value of an array with more than one element is ambiguous. Use a.any() or a.all()"

/-- Python subscription v[i], for the index shapes the handlers use.  A lookup
of a missing dict key models str(KeyError(key)), which is the repr of the key:
quotes around a string key, the digits of an int key. -/
def pySub : PyVal → PyVal → Except String PyVal
  | .list xs, .int i =>
      let j : Int := if i < 0 then i + xs.length else i
      if j < 0 then .error "list index out of range"
      else
        match xs.get? j.toNat with
        | some x => .ok x
        | _ => .error "list index out of range"
  | .list _, _ => .error "list indices must be integers or slices"
  | .dict kvs, .str k =>
      match kvs.find? (fun kv => kv.1 == k) with
      | some kv => .ok kv.2
      | _ => .error ("\x27" ++ k ++ "\x27")
  | .dict _, .int n => .error (toString n)
  | .dict _, _ => .error "key not found"
  | .str s, .int i =>
      let j : Int := if i < 0 then i + s.length else i
      if j < 0 then .error "string index out of range"
      else
        match s.toList.get? j.toNat with
        | some c => .ok (.str (String.singleton c))
        | _ => .error "string index out of range"
  | .str _, _ => .error "string indices must be integers"
  | .int _, _ => .error "int object is not subscriptable"
  | .float _, _ => .error "float object is not subscriptable"
  | .bool _, _ => .error "bool object is not subscriptable"
  | .none, _ => .error "NoneType object is not subscriptable"
  | .nparr _, _ => .error "ndarray indexing is not modelled"

/-- Python slice v[1:], as used by zero_shot_classification.py. -/
def pySlice1 : PyVal → Except String PyVal
  | .list xs => .ok (.list (xs.drop 1))
  | .str s => .ok (.str (s.drop 1))
  | .int _ => .error "int object is not subscriptable"
  | .float _ => .error "float object is not subscriptable"
  | .bool _ => .error "bool object is not subscriptable"
  | .none => .error "NoneType object is not subscriptable"
  | .dict _ => .error "unhashable type"
  | .nparr _ => .error "ndarray indexing is not modelled"

/-- The Python containment test x in c: key membership for dicts, element
equality for lists, substring for strings, a TypeError for non-containers. -/
def pyIn (x c : PyVal) : Except String Bool :=
  match c with
  | .dict kvs =>
      match x with
      | .str k => .ok (kvs.any fun kv => kv.1 == k)
      | .list _ => .error "unhashable type"
      | .dict _ => .error "unhashable type"
      | .nparr _ => .error "unhashable type"
      | _ => .ok false
  | .list ys => .ok (ys.any fun y => pyEq x y)
  | .str s =>
      match x with
      | .str t => if t == "" then .ok true else .ok (decide ((s.splitOn t).length ≥ 2))
      | _ => .error "in string requires string as left operand"
  | .int _ => .error "argument of type int is not iterable"
  | .float _ => .error "argument of type float is not iterable"
  | .bool _ => .error "argument of type bool is not iterable"
  | .none => .error "argument of type NoneType is not iterable"
  | .nparr _ => .error "ndarray containment is not modelled"

/-- Python item assignment d[k] = x for a dict, preserving key order on
overwrite and appending a fresh key; any non-dict raises. -/
def dictSet (v : PyVal) (k : String) (x : PyVal) : Except String PyVal :=
  match v with
  | .dict kvs =>
      if kvs.any (fun kv => kv.1 == k) then
        .ok (.dict (kvs.map fun kv => if kv.1 == k then (kv.1, x) else kv))
      else .ok (.dict (kvs ++ [(k, x)]))
  | _ => .error "object does not support item assignment"

/-- Shape inference of np.array over a nested list value: the shape if the
nesting is rectangular and the leaves are numbers, an error otherwise.
Modelled from the spec for the external numpy collaborator: nested numeric
sequences become float32 buffers; non-numeric leaves are rejected. -/
def npShape : PyVal → Except String (List Nat)
  | .int _ => .ok []
  | .float _ => .ok []
  | .bool _ => .ok []
  | .nparr a => .ok a.shape
  | .list [] => .ok [0]
  | .list [x] =>
      match npShape x with
      | .error e => .error e
      | .ok s => .ok (1 :: s)
  | .list (x :: y :: xs) =>
      match npShape x with
      | .error e => .error e
      | .ok s =>
          match npShape (.list (y :: xs)) with
          | .error e => .error e
          | .ok (n :: s2) =>
              if s2 == s then .ok ((n + 1) :: s)
              else .error "setting an array element with a sequence. The requested array has an inhomogeneous shape"
          | .ok [] => .error "setting an array element with a sequence. The requested array has an inhomogeneous shape"
  | _ => .error "could not convert value to float32"
termination_by v => sizeOf v
decreasing_by
  all_goals simp only [PyVal.list.sizeOf_spec, List.cons.sizeOf_spec]
  all_goals omega

/-- Row-major flattening matching npShape. -/
def npFlat : PyVal → Except String (List Dec)
  | .int i => .ok [⟨i, 0⟩]
  | .float d => .ok [d]
  | .bool b => .ok [if b then ⟨1, 0⟩ else ⟨0, 0⟩]
  | .nparr a => .ok a.data
  | .list [] => .ok []
  | .list (x :: xs) =>
      match npFlat x with
      | .error e => .error e
      | .ok a =>
          match npFlat (.list xs) with
          | .error e => .error e
          | .ok b => .ok (a ++ b)
  | _ => .error "could not convert value to float32"
termination_by v => sizeOf v
decreasing_by
  all_goals simp only [PyVal.list.sizeOf_spec, List.cons.sizeOf_spec]
  all_goals omega

/-- np.array(v): converts a nested numeric value to an ndarray. -/
def npOf (v : PyVal) : Except String NpArray := do
  let s ← npShape v
  let d ← npFlat v
  .ok ⟨s, d⟩

/-- np.squeeze(v): converts to an array and removes the axes of length one.
Axes of other lengths are kept, so a 2 by 2 array is returned unchanged. -/
def npSqueeze (v : PyVal) : Except String NpArray := do
  let a ← npOf v
  .ok ⟨a.shape.filter (fun d => d != 1), a.data⟩

def prodL (l : List Nat) : Nat := l.foldl (· * ·) 1

/-- Rebuild the nested list of an array from its shape and flat data. -/
def unflatten : List Nat → List Dec → PyVal
  | [], d => .float (d.headD ⟨0, 0⟩)
  | n :: rest, d =>
      .list ((List.range n).map fun i =>
        unflatten rest ((d.drop (i * prodL rest)).take (prodL rest)))

/-- ndarray.tolist(). -/
def NpArray.tolist (a : NpArray) : PyVal := unflatten a.shape a.data

/-- One named part of a djl Output.  OutPart.json v stands for the string
json.dumps(v); OutPart.str is a plain string part; OutPart.bytes raw bytes;
OutPart.pyobj records that a non-string object was handed to Output.add, whose
further treatment is external. -/
inductive OutPart where
  | str (s : String) : OutPart
  | bytes (b : List Nat) : OutPart
  | json (v : PyVal) : OutPart
  | pyobj (v : PyVal) : OutPart
deriving Repr

def OutPart.kindIdx : OutPart → Nat
  | .str _ => 0
  | .bytes _ => 1
  | .json _ => 2
  | .pyobj _ => 3

/-- The djl Output envelope: an ordered sequence of named parts. -/
structure Output where
  parts : List (String × OutPart)
deriving Repr

def Output.empty : Output := ⟨[]⟩

def Output.add (o : Output) (p : OutPart) (name : String) : Output :=
  ⟨o.parts ++ [(name, p)]⟩

/-- The error payload every handler produces in its except branch:
outputs.add of json.dumps of a single-key error object. -/
def errorOutput (msg : String) : Output :=
  Output.empty.add (OutPart.json (.dict [("error", .str msg)])) "data"

/-- outputs.add(v, "data") for a value that may or may not be a string. -/
def addPy : PyVal → OutPart
  | .str s => OutPart.str s
  | v => OutPart.pyobj v

/-- json.dumps(v) as an Output part; raises on ndarrays like Python json. -/
def jsonOutPart (v : PyVal) : Except String OutPart :=
  if v.serializable then .ok (OutPart.json v)
  else .error "Object of type ndarray is not JSON serializable"

/-- True when the output is exactly one data part holding a JSON object with
a single error key carrying a string. -/
def isErrorOutput (o : Output) : Bool :=
  match o.parts with
  | [(n, OutPart.json (.dict [(k, .str _)]))] => n == "data" && k == "error"
  | _ => false

/-- The error message of an error payload output, if it is one. -/
def Output.errorVal (o : Output) : Option String :=
  match o.parts with
  | [(n, OutPart.json (.dict [(k, .str m)]))] =>
      if n == "data" && k == "error" then some m else Option.none
  | _ => Option.none

/-- The kind index of the single data part, used to discriminate outputs. -/
def Output.dataKindIdx (o : Output) : Option Nat :=
  match o.parts with
  | [(_, p)] => some p.kindIdx
  | _ => Option.none

/-- The constructor index of the value inside a single json data part. -/
def Output.dataJsonCtor (o : Output) : Option Nat :=
  match o.parts with
  | [(_, OutPart.json v)] => some v.ctorIdx
  | _ => Option.none

/-- The inbound djl Input: the size of its content pair list and the named
string parts reachable through get_as_string. -/
structure PyInput where
  contentSize : Nat
  parts : List (String × String)

/-- inputs.get_as_string(name); a missing part raises inside the try block. -/
def PyInput.getAsString (i : PyInput) (name : String) : Except String String :=
  match i.parts.find? (fun p => p.1 == name) with
  | some p => .ok p.2
  | _ => .error ("Key " ++ name ++ " not found")

/-! JSON parsing, modelling json.loads on the value subset the handlers
exchange: objects, arrays, strings with simple escapes, decimal numbers with
optional fraction and exponent, and the three literals.  The parser is a
fueled recursive-descent parser over the character list; the fuel passed by
jsonLoads always suffices because every recursive step consumes input. -/

/-- Skip JSON whitespace. -/
def skipWs : List Char → List Char
  | c :: rest =>
      if c = ' ' ∨ c = '\t' ∨ c = '\n' ∨ c = '\r' then skipWs rest else c :: rest
  | [] => []

/-- Parse the remainder of a JSON string literal after the opening quote. -/
def parseStrAux : List Char → List Char → Except String (String × List Char)
  | _, [] => .error "Unterminated string"
  | acc, c :: rest =>
      if c = '"' then .ok (String.mk acc.reverse, rest)
      else if c = '\\' then
        match rest with
        | 'n' :: r2 => parseStrAux ('\n' :: acc) r2
        | 't' :: r2 => parseStrAux ('\t' :: acc) r2
        | 'r' :: r2 => parseStrAux ('\r' :: acc) r2
        | '"' :: r2 => parseStrAux ('"' :: acc) r2
        | '\\' :: r2 => parseStrAux ('\\' :: acc) r2
        | '/' :: r2 => parseStrAux ('/' :: acc) r2
        | _ => .error "Invalid escape"
      else parseStrAux (c :: acc) rest

/-- Split a leading run of decimal digits from the input. -/
def takeDigits : List Char → List Char × List Char
  | c :: rest =>
      if c.isDigit then
        let p := takeDigits rest
        (c :: p.1, p.2)
      else ([], c :: rest)
  | [] => ([], [])

def digitsToNat (ds : List Char) : Nat :=
  ds.foldl (fun acc c => acc * 10 + (c.toNat - 48)) 0

/-- Parse an optional exponent suffix and scale the decimal; returns the
scaled value, whether an exponent was present, and the remaining input. -/
def parseExpOpt (q : Dec) : List Char → Except String (Dec × Bool × List Char)
  | c :: rest =>
      if c = 'e' ∨ c = 'E' then
        let p : Bool × List Char :=
          match rest with
          | '-' :: r2 => (true, r2)
          | '+' :: r2 => (false, r2)
          | r2 => (false, r2)
        let d := takeDigits p.2
        if d.1 = [] then .error "Expecting digits in exponent"
        else
          let e : Nat := digitsToNat d.1
          .ok (if p.1 then ⟨q.mant, q.exp + e⟩ else ⟨q.mant * (10 : Int) ^ e, q.exp⟩, true, d.2)
      else .ok (q, false, c :: rest)
  | [] => .ok (q, false, [])

/-- Parse a JSON number: an int when it has neither fraction nor exponent,
a float otherwise, like json.loads. -/
def parseNum (cs : List Char) : Except String (PyVal × List Char) :=
  let p : Bool × List Char :=
    match cs with
    | '-' :: r => (true, r)
    | r => (false, r)
  let d := takeDigits p.2
  if d.1 = [] then .error "Expecting value"
  else
    let ip : Nat := digitsToNat d.1
    match d.2 with
    | '.' :: cs3 =>
        let f := takeDigits cs3
        if f.1 = [] then .error "Expecting digits after decimal point"
        else
          let q : Dec := ⟨(ip : Int) * (10 : Int) ^ f.1.length + (digitsToNat f.1 : Int), f.1.length⟩
          match parseExpOpt q f.2 with
          | .error e => .error e
          | .ok r => .ok (.float (if p.1 then ⟨-r.1.mant, r.1.exp⟩ else r.1), r.2.2)
    | cs2 =>
        match parseExpOpt ⟨(ip : Int), 0⟩ cs2 with
        | .error e => .error e
        | .ok r =>
            if r.2.1 then .ok (.float (if p.1 then ⟨-r.1.mant, r.1.exp⟩ else r.1), r.2.2)
            else .ok (.int (if p.1 then -(ip : Int) else (ip : Int)), r.2.2)

mutual

/-- Parse one JSON value. -/
def parseVal : Nat → List Char → Except String (PyVal × List Char)
  | 0, _ => .error "json nesting limit exceeded"
  | fuel + 1, cs =>
      match skipWs cs with
      | [] => .error "Expecting value"
      | c :: rest =>
          if c = '"' then
            match parseStrAux [] rest with
            | .error e => .error e
            | .ok p => .ok (.str p.1, p.2)
          else if c = '[' then
            match skipWs rest with
            | ']' :: r2 => .ok (.list [], r2)
            | cs2 =>
                match parseElems fuel cs2 with
                | .error e => .error e
                | .ok p => .ok (.list p.1, p.2)
          else if c = '{' then
            match skipWs rest with
            | '}' :: r2 => .ok (.dict [], r2)
            | cs2 =>
                match parseMembers fuel cs2 with
                | .error e => .error e
                | .ok p => .ok (.dict p.1, p.2)
          else if c = 't' then
            match rest with
            | 'r' :: 'u' :: 'e' :: r2 => .ok (.bool true, r2)
            | _ => .error "Expecting value"
          else if c = 'f' then
            match rest with
            | 'a' :: 'l' :: 's' :: 'e' :: r2 => .ok (.bool false, r2)
            | _ => .error "Expecting value"
          else if c = 'n' then
            match rest with
            | 'u' :: 'l' :: 'l' :: r2 => .ok (.none, r2)
            | _ => .error "Expecting value"
          else parseNum (c :: rest)

/-- Parse the comma-separated elements of a non-empty array, including the
closing bracket. -/
def parseElems : Nat → List Char → Except String (List PyVal × List Char)
  | 0, _ => .error "json nesting limit exceeded"
  | fuel + 1, cs =>
      match parseVal fuel cs with
      | .error e => .error e
      | .ok p =>
          match skipWs p.2 with
          | ',' :: r2 =>
              match parseElems fuel r2 with
              | .error e => .error e
              | .ok q => .ok (p.1 :: q.1, q.2)
          | ']' :: r2 => .ok ([p.1], r2)
          | _ => .error "Expecting comma delimiter"

/-- Parse the members of a non-empty object, including the closing brace. -/
def parseMembers : Nat → List Char → Except String (List (String × PyVal) × List Char)
  | 0, _ => .error "json nesting limit exceeded"
  | fuel + 1, cs =>
      match skipWs cs with
      | '"' :: rest =>
          match parseStrAux [] rest with
          | .error e => .error e
          | .ok kp =>
              match skipWs kp.2 with
              | ':' :: r2 =>
                  match parseVal fuel r2 with
                  | .error e => .error e
                  | .ok vp =>
                      match skipWs vp.2 with
                      | ',' :: r3 =>
                          match parseMembers fuel r3 with
                          | .error e => .error e
                          | .ok q => .ok ((kp.1, vp.1) :: q.1, q.2)
                      | '}' :: r3 => .ok ([(kp.1, vp.1)], r3)
                      | _ => .error "Expecting comma delimiter"
              | _ => .error "Expecting colon delimiter"
      | _ => .error "Expecting property name enclosed in double quotes"

end

/-- json.loads(s): parse one value and reject trailing data. -/
def jsonLoads (s : String) : Except String PyVal :=
  match parseVal (s.length + 2) s.toList with
  | .error e => .error e
  | .ok p => if skipWs p.2 = [] then .ok p.1 else .error "Extra data"

/-! The per-deployment configuration records.  The scripts receive these
values as textual placeholders substituted at deployment time; section 9 of
the design document identifies them as an immutable configuration record. -/

/-- chat.py kwargs: max_new_tokens, do_sample, temperature. -/
structure ChatConfig where
  maxNewTokens : Int
  doSample : Bool
  temperature : Dec

/-- summarization.py kwargs: min_length, max_new_tokens, do_sample,
temperature. -/
structure SummConfig where
  minLength : Int
  maxNewTokens : Int
  doSample : Bool
  temperature : Dec

/-- zero_shot_classification.py: the multi_label kwarg and the
return-top-label-only switch. -/
structure ZscConfig where
  multiLabel : Bool
  returnTopLabelOnly : Bool

/-! The opaque inference pipelines, one per task.  Each is a function of the
torch RNG seed state in force at call time and of exactly the arguments the
script passes; it returns the task result or raises.  The diffusion pipeline
of text_to_image.py returns an object whose images field holds image objects;
an image is modelled by the PNG bytes that image.save would emit for it. -/

def AsrPipe : Type := Nat → NpArray → Except String PyVal
def ChatPipe : Type := Nat → PyVal → ChatConfig → Except String PyVal
def QaPipe : Type := Nat → PyVal → PyVal → Except String PyVal
def SummPipe : Type := Nat → String → SummConfig → Except String PyVal
def TcPipe : Type := Nat → String → Except String PyVal

/-- The result object of the StableDiffusionPipeline call: its images list. -/
structure TtiResult where
  images : List (List Nat)

def TtiPipe : Type := Nat → String → Except String TtiResult
def TtsPipe : Type := Nat → String → Except String PyVal
def ZscPipe : Type := Nat → PyVal → PyVal → Bool → Except String PyVal

/-- The except branch shared by every handler: a raised exception becomes the
JSON error payload, a normal Output passes through; the invocation count is
unaffected. -/
def catchRun (r : Except String Output × Nat) : Output × Nat :=
  match r with
  | (.ok o, n) => (o, n)
  | (.error e, n) => (errorOutput e, n)

/-! automatic_speech_recognition.py -/

/-- The body of the try block of handle in automatic_speech_recognition.py
after the warmup check: read the data string, json.loads it, convert to a
float32 ndarray, call pipe on it (no seeding in this script), json.dumps the
result into the data part. -/
def asrRun (pipe : AsrPipe) (rng : Nat) (inputs : PyInput) :
    Except String Output × Nat :=
  match inputs.getAsString "data" with
  | .error e => (.error e, 0)
  | .ok input_str =>
    match jsonLoads input_str with
    | .error e => (.error e, 0)
    | .ok waveform_list =>
      match npOf waveform_list with
      | .error e => (.error e, 0)
      | .ok waveform =>
        match pipe rng waveform with
        | .error e => (.error e, 1)
        | .ok result =>
          match jsonOutPart result with
          | .error e => (.error e, 1)
          | .ok p => (.ok (Output.empty.add p "data"), 1)

/-- handle of automatic_speech_recognition.py. -/
def asrHandle (pipe : AsrPipe) (rng : Nat) (inputs : PyInput) : Output × Nat :=
  if inputs.contentSize = 0 then (Output.empty, 0)
  else catchRun (asrRun pipe rng inputs)

/-! chat.py -/

/-- The body of the try block of handle in chat.py after the warmup check:
read the data string, json.loads the message list, torch.manual_seed(42),
call pipe with the kwargs, json.dumps the result. -/
def chatRun (pipe : ChatPipe) (cfg : ChatConfig) (inputs : PyInput) :
    Except String Output × Nat :=
  match inputs.getAsString "data" with
  | .error e => (.error e, 0)
  | .ok input_str =>
    match jsonLoads input_str with
    | .error e => (.error e, 0)
    | .ok messages =>
      match pipe 42 messages cfg with
      | .error e => (.error e, 1)
      | .ok result =>
        match jsonOutPart result with
        | .error e => (.error e, 1)
        | .ok p => (.ok (Output.empty.add p "data"), 1)

/-- handle of chat.py.  The rng argument is the ambient torch seed state; the
script overwrites it with 42 before the only pipeline call, so the body never
reads it. -/
def chatHandle (pipe : ChatPipe) (cfg : ChatConfig) (rng : Nat)
    (inputs : PyInput) : Output × Nat :=
  if inputs.contentSize = 0 then (Output.empty, 0)
  else catchRun (chatRun pipe cfg inputs)

/-! question_answering.py -/

/-- The answer extraction of question_answering.py: result["answer"] if
"answer" in result else the empty string. -/
def qaExtract (result : PyVal) : Except String OutPart :=
  match pyIn (.str "answer") result with
  | .error e => .error e
  | .ok has =>
      if has then
        match pySub result (.str "answer") with
        | .error e => .error e
        | .ok answer => .ok (addPy answer)
      else .ok (OutPart.str "")

/-- The body of the try block of handle in question_answering.py after the
warmup check: read the data string, seed, json.loads, subscript the question
and context keys, call pipe, extract the answer. -/
def qaRun (pipe : QaPipe) (inputs : PyInput) : Except String Output × Nat :=
  match inputs.getAsString "data" with
  | .error e => (.error e, 0)
  | .ok input_str =>
    match jsonLoads input_str with
    | .error e => (.error e, 0)
    | .ok input_data =>
      match pySub input_data (.str "question") with
      | .error e => (.error e, 0)
      | .ok q =>
        match pySub input_data (.str "context") with
        | .error e => (.error e, 0)
        | .ok c =>
          match pipe 42 q c with
          | .error e => (.error e, 1)
          | .ok result =>
            match qaExtract result with
            | .error e => (.error e, 1)
            | .ok p => (.ok (Output.empty.add p "data"), 1)

/-- handle of question_answering.py. -/
def qaHandle (pipe : QaPipe) (rng : Nat) (inputs : PyInput) : Output × Nat :=
  if inputs.contentSize = 0 then (Output.empty, 0)
  else catchRun (qaRun pipe inputs)

/-! summarization.py -/

/-- The summary extraction of summarization.py: result[0]["summary_text"]
when result is truthy, a list, non-empty and the first element passes the
containment test, else the empty string.  The truthiness test or the
containment test or the final subscript can raise. -/
def summExtract (result : PyVal) : Except String OutPart :=
  match pyTruthy result with
  | .error e => .error e
  | .ok t =>
      match result, t with
      | .list (r0 :: _), true =>
          match pyIn (.str "summary_text") r0 with
          | .error e => .error e
          | .ok has =>
              if has then
                match pySub r0 (.str "summary_text") with
                | .error e => .error e
                | .ok s => .ok (addPy s)
              else .ok (OutPart.str "")
      | _, _ => .ok (OutPart.str "")

/-- The body of the try block of handle in summarization.py after the warmup
check: read the data string (used directly as the document), seed, call pipe
with the kwargs, extract the summary. -/
def summRun (pipe : SummPipe) (cfg : SummConfig) (inputs : PyInput) :
    Except String Output × Nat :=
  match inputs.getAsString "data" with
  | .error e => (.error e, 0)
  | .ok input_str =>
    match pipe 42 input_str cfg with
    | .error e => (.error e, 1)
    | .ok result =>
      match summExtract result with
      | .error e => (.error e, 1)
      | .ok p => (.ok (Output.empty.add p "data"), 1)

/-- handle of summarization.py. -/
def summHandle (pipe : SummPipe) (cfg : SummConfig) (rng : Nat)
    (inputs : PyInput) : Output × Nat :=
  if inputs.contentSize = 0 then (Output.empty, 0)
  else catchRun (summRun pipe cfg inputs)

/-! text_classification.py -/

/-- The flattening step of text_classification.py: if result is truthy and
result[0] is a list, replace result with result[0].  Evaluating result[0] on
a truthy non-sequence raises. -/
def tcAdjust (result : PyVal) : Except String PyVal :=
  match pyTruthy result with
  | .error e => .error e
  | .ok t =>
      if t then
        match pySub result (.int 0) with
        | .error e => .error e
        | .ok r0 => if r0.isList then .ok r0 else .ok result
      else .ok result

/-- The body of the try block of handle in text_classification.py after the
warmup check: read the data string, seed, call pipe on it, flatten one level
if nested, json.dumps the result. -/
def tcRun (pipe : TcPipe) (inputs : PyInput) : Except String Output × Nat :=
  match inputs.getAsString "data" with
  | .error e => (.error e, 0)
  | .ok input_str =>
    match pipe 42 input_str with
    | .error e => (.error e, 1)
    | .ok result =>
      match tcAdjust result with
      | .error e => (.error e, 1)
      | .ok result2 =>
        match jsonOutPart result2 with
        | .error e => (.error e, 1)
        | .ok p => (.ok (Output.empty.add p "data"), 1)

/-- handle of text_classification.py. -/
def tcHandle (pipe : TcPipe) (rng : Nat) (inputs : PyInput) : Output × Nat :=
  if inputs.contentSize = 0 then (Output.empty, 0)
  else catchRun (tcRun pipe inputs)

/-! text_to_image.py -/

/-- The body of the try block of handle in text_to_image.py after the warmup
check: read the prompt, seed, call pipe, take images[0] (an empty images list
raises IndexError), emit the PNG bytes as the data part. -/
def ttiRun (pipe : TtiPipe) (inputs : PyInput) : Except String Output × Nat :=
  match inputs.getAsString "data" with
  | .error e => (.error e, 0)
  | .ok input_str =>
    match pipe 42 input_str with
    | .error e => (.error e, 1)
    | .ok res =>
      match res.images.get? 0 with
      | some image => (.ok (Output.empty.add (OutPart.bytes image) "data"), 1)
      | _ => (.error "list index out of range", 1)

/-- handle of text_to_image.py. -/
def ttiHandle (pipe : TtiPipe) (rng : Nat) (inputs : PyInput) : Output × Nat :=
  if inputs.contentSize = 0 then (Output.empty, 0)
  else catchRun (ttiRun pipe inputs)

/-! text_to_speech.py -/

/-- The audio rewrite of text_to_speech.py: result["audio"] is replaced by
np.squeeze(result["audio"]).tolist().  The subscript raises when result is
not a dict with an audio key. -/
def ttsAdjust (result : PyVal) : Except String PyVal :=
  match pySub result (.str "audio") with
  | .error e => .error e
  | .ok audio =>
      match npSqueeze audio with
      | .error e => .error e
      | .ok arr => dictSet result "audio" arr.tolist

/-- The body of the try block of handle in text_to_speech.py after the warmup
check: read the text, seed, call pipe, rewrite the audio field, json.dumps
the result. -/
def ttsRun (pipe : TtsPipe) (inputs : PyInput) : Except String Output × Nat :=
  match inputs.getAsString "data" with
  | .error e => (.error e, 0)
  | .ok input_str =>
    match pipe 42 input_str with
    | .error e => (.error e, 1)
    | .ok result =>
      match ttsAdjust result with
      | .error e => (.error e, 1)
      | .ok result2 =>
        match jsonOutPart result2 with
        | .error e => (.error e, 1)
        | .ok p => (.ok (Output.empty.add p "data"), 1)

/-- handle of text_to_speech.py. -/
def ttsHandle (pipe : TtsPipe) (rng : Nat) (inputs : PyInput) : Output × Nat :=
  if inputs.contentSize = 0 then (Output.empty, 0)
  else catchRun (ttsRun pipe inputs)

/-! zero_shot_classification.py -/

/-- The output selection of zero_shot_classification.py: with the top-label
switch on, result["labels"][0] added as a plain part; otherwise json.dumps of
the whole result. -/
def zscSelect (cfg : ZscConfig) (result : PyVal) : Except String OutPart :=
  if cfg.returnTopLabelOnly then
    match pySub result (.str "labels") with
    | .error e => .error e
    | .ok labels =>
        match pySub labels (.int 0) with
        | .error e => .error e
        | .ok top => .ok (addPy top)
  else jsonOutPart result

/-- The body of the try block of handle in zero_shot_classification.py after
the warmup check: read the data string, json.loads, split text and candidate
labels, raise the ValueError when no label is supplied, seed, call pipe,
select the output. -/
def zscRun (pipe : ZscPipe) (cfg : ZscConfig) (inputs : PyInput) :
    Except String Output × Nat :=
  match inputs.getAsString "data" with
  | .error e => (.error e, 0)
  | .ok input_str =>
    match jsonLoads input_str with
    | .error e => (.error e, 0)
    | .ok input_data =>
      match pySub input_data (.int 0) with
      | .error e => (.error e, 0)
      | .ok text =>
        match pySlice1 input_data with
        | .error e => (.error e, 0)
        | .ok candidate_labels =>
          match pyTruthy candidate_labels with
          | .error e => (.error e, 0)
          | .ok t =>
            if !t then
              (.error "At least one candidate label required for zero-shot", 0)
            else
              match pipe 42 text candidate_labels cfg.multiLabel with
              | .error e => (.error e, 1)
              | .ok result =>
                match zscSelect cfg result with
                | .error e => (.error e, 1)
                | .ok p => (.ok (Output.empty.add p "data"), 1)

/-- handle of zero_shot_classification.py. -/
def zscHandle (pipe : ZscPipe) (cfg : ZscConfig) (rng : Nat)
    (inputs : PyInput) : Output × Nat :=
  if inputs.contentSize = 0 then (Output.empty, 0)
  else catchRun (zscRun pipe cfg inputs)

/-! Concrete fixtures used by the witness and counterexample theorems. -/

def warmInput : PyInput := ⟨0, []⟩
def textInput : PyInput := ⟨1, [("data", "hello")]⟩
def chatInput : PyInput := ⟨1, [("data", "[]")]⟩
def qaInput : PyInput := ⟨1, [("data", "\x7b\"question\": \"q\", \"context\": \"c\"\x7d")]⟩
def zscInput : PyInput := ⟨1, [("data", "[\"text\",\"label1\",\"label2\"]")]⟩
def zscInputOne : PyInput := ⟨1, [("data", "[\"text\"]")]⟩
def asrInput : PyInput := ⟨1, [("data", "[0.1, 0.2]")]⟩

def chatCfg : ChatConfig := ⟨256, true, 0.7⟩
def summCfg : SummConfig := ⟨10, 100, false, 1.0⟩
def zscCfgTop : ZscConfig := ⟨false, true⟩
def zscCfgFull : ZscConfig := ⟨false, false⟩

/-- A chat pipeline that always raises the given message. -/
def chatRaise (m : String) : ChatPipe := fun _ _ _ => .error m

/-- A chat pipeline returning a constant result. -/
def chatConst (v : PyVal) : ChatPipe := fun _ _ _ => .ok v

def asrRaise (m : String) : AsrPipe := fun _ _ => .error m
def qaRaise (m : String) : QaPipe := fun _ _ _ => .error m
def summRaise (m : String) : SummPipe := fun _ _ _ => .error m
def tcRaise (m : String) : TcPipe := fun _ _ => .error m
def ttiRaise (m : String) : TtiPipe := fun _ _ => .error m
def ttsRaise (m : String) : TtsPipe := fun _ _ => .error m
def zscRaise (m : String) : ZscPipe := fun _ _ _ _ => .error m

def asrConst (v : PyVal) : AsrPipe := fun _ _ => .ok v
def qaConst (v : PyVal) : QaPipe := fun _ _ _ => .ok v
def summConst (v : PyVal) : SummPipe := fun _ _ _ => .ok v
def tcConst (v : PyVal) : TcPipe := fun _ _ => .ok v
def ttiConst (imgs : List (List Nat)) : TtiPipe := fun _ _ => .ok ⟨imgs⟩
def ttsConst (v : PyVal) : TtsPipe := fun _ _ => .ok v
def zscConst (v : PyVal) : ZscPipe := fun _ _ _ _ => .ok v

/-- A one-element ndarray, used as a result value json.dumps rejects. -/
def npStub : NpArray := ⟨[1], [⟨0, 0⟩]⟩

/-- A two-element ndarray, whose truthiness test raises in numpy. -/
def npStub2 : NpArray := ⟨[2], [⟨0, 0⟩, ⟨0, 0⟩]⟩

/-- The 2 by 2 nested audio result of the text-to-speech test of section 8 of
the design document. -/
def ttsNestedResult : PyVal :=
  .dict [("audio", .list [.list [.float 0.1, .float 0.2],
                          .list [.float 0.3, .float 0.4]])]

/-- An audio result of shape 1 by 4, whose sole length-one axis np.squeeze
does remove. -/
def ttsRowResult : PyVal :=
  .dict [("audio", .list [.list [.float 0.1, .float 0.2, .float 0.3, .float 0.4]])]

/-- The zero-shot result of section 8 of the design document. -/
def zscResult : PyVal :=
  .dict [("labels", .list [.str "label2", .str "label1"]),
         ("scores", .list [.float 0.7, .float 0.3])]

/-- The inner sequence of the nested text-classification result of section 8
of the design document. -/
def tcInner : PyVal :=
  .list [.dict [("label", .str "A"), ("score", .float 0.9)],
         .dict [("label", .str "B"), ("score", .float 0.1)]]

/-- The nested text-classification result of section 8 of the design
document: a singleton list holding tcInner. -/
def tcNested : PyVal := .list [tcInner]

/-- The constructor index of the first element of the audio list inside a
single json data part, used to discriminate nested from flat audio
encodings. -/
def audioHeadCtor (o : Output) : Option Nat :=
  match o.parts with
  | [(_, OutPart.json (.dict [(_, .list (x :: _))]))] => some x.ctorIdx
  | _ => Option.none

/-! C1.  For every task handler, a content size of zero returns the empty
envelope without invoking the pipeline. -/

/-- C1: for every task handler and every configuration, an inbound request of
content size zero yields the empty response envelope with no named parts, and
the inference pipeline is never invoked (invocation count zero). -/
theorem c1_warmup_empty (inp : PyInput) (h : inp.contentSize = 0) :
    (∀ (pipe : AsrPipe) (rng : Nat), asrHandle pipe rng inp = (Output.empty, 0)) ∧
    (∀ (pipe : ChatPipe) (cfg : ChatConfig) (rng : Nat),
      chatHandle pipe cfg rng inp = (Output.empty, 0)) ∧
    (∀ (pipe : QaPipe) (rng : Nat), qaHandle pipe rng inp = (Output.empty, 0)) ∧
    (∀ (pipe : SummPipe) (cfg : SummConfig) (rng : Nat),
      summHandle pipe cfg rng inp = (Output.empty, 0)) ∧
    (∀ (pipe : TcPipe) (rng : Nat), tcHandle pipe rng inp = (Output.empty, 0)) ∧
    (∀ (pipe : TtiPipe) (rng : Nat), ttiHandle pipe rng inp = (Output.empty, 0)) ∧
    (∀ (pipe : TtsPipe) (rng : Nat), ttsHandle pipe rng inp = (Output.empty, 0)) ∧
    (∀ (pipe : ZscPipe) (cfg : ZscConfig) (rng : Nat),
      zscHandle pipe cfg rng inp = (Output.empty, 0)) := by
  refine ⟨fun _ _ => ?_, fun _ _ _ => ?_, fun _ _ => ?_, fun _ _ _ => ?_,
    fun _ _ => ?_, fun _ _ => ?_, fun _ _ => ?_, fun _ _ _ => ?_⟩ <;>
    simp [asrHandle, chatHandle, qaHandle, summHandle, tcHandle, ttiHandle,
      ttsHandle, zscHandle, h]

/-- C1 witness: the warmup contract evaluated at a concrete empty request for
each of the eight handlers. -/
theorem c1_warmup_empty_witness :
    asrHandle (asrRaise "x") 0 warmInput = (Output.empty, 0) ∧
    chatHandle (chatRaise "x") chatCfg 0 warmInput = (Output.empty, 0) ∧
    qaHandle (qaRaise "x") 0 warmInput = (Output.empty, 0) ∧
    summHandle (summRaise "x") summCfg 0 warmInput = (Output.empty, 0) ∧
    tcHandle (tcRaise "x") 0 warmInput = (Output.empty, 0) ∧
    ttiHandle (ttiRaise "x") 0 warmInput = (Output.empty, 0) ∧
    ttsHandle (ttsRaise "x") 0 warmInput = (Output.empty, 0) ∧
    zscHandle (zscRaise "x") zscCfgTop 0 warmInput = (Output.empty, 0) := by
  have h := c1_warmup_empty warmInput rfl
  exact ⟨h.1 _ _, h.2.1 _ _ _, h.2.2.1 _ _, h.2.2.2.1 _ _ _, h.2.2.2.2.1 _ _,
    h.2.2.2.2.2.1 _ _, h.2.2.2.2.2.2.1 _ _, h.2.2.2.2.2.2.2 _ _ _⟩

/-! C2.  Error wrapping of pipeline exceptions. -/

/-- C2 counterexample: a pipeline exception whose str is empty, such as a bare
Exception(), produces an error payload whose error value is the empty string,
so the response does not carry a non-empty error value as claimed. -/
theorem c2_error_value_counterexample :
    (chatHandle (chatRaise "") chatCfg 0 chatInput).1.errorVal = some "" ∧
    ¬ (∃ s, (chatHandle (chatRaise "") chatCfg 0 chatInput).1.errorVal = some s ∧
        s ≠ "") := by
  have h : (chatHandle (chatRaise "") chatCfg 0 chatInput).1.errorVal = some "" := rfl
  refine ⟨h, ?_⟩
  rintro ⟨s, hs, hne⟩
  rw [h] at hs
  exact hne (Option.some.inj hs).symm

/-- C2 amended: for every task handler, a pipeline call that raises an
exception with message m on a non-warmup request that decodes successfully
yields the error payload whose error value is exactly m, the str of the
raised exception; the handler returns normally after one pipeline invocation.
The value is therefore non-empty exactly when the exception message is. -/
theorem c2_error_wrap_amended :
    (∀ (rng : Nat) (inp : PyInput) (s : String) (v : PyVal) (w : NpArray) (m : String),
      inp.contentSize ≠ 0 → inp.getAsString "data" = .ok s → jsonLoads s = .ok v →
      npOf v = .ok w → asrHandle (asrRaise m) rng inp = (errorOutput m, 1)) ∧
    (∀ (cfg : ChatConfig) (rng : Nat) (inp : PyInput) (s : String) (v : PyVal) (m : String),
      inp.contentSize ≠ 0 → inp.getAsString "data" = .ok s → jsonLoads s = .ok v →
      chatHandle (chatRaise m) cfg rng inp = (errorOutput m, 1)) ∧
    (∀ (rng : Nat) (inp : PyInput) (s : String) (v q c : PyVal) (m : String),
      inp.contentSize ≠ 0 → inp.getAsString "data" = .ok s → jsonLoads s = .ok v →
      pySub v (.str "question") = .ok q → pySub v (.str "context") = .ok c →
      qaHandle (qaRaise m) rng inp = (errorOutput m, 1)) ∧
    (∀ (cfg : SummConfig) (rng : Nat) (inp : PyInput) (s : String) (m : String),
      inp.contentSize ≠ 0 → inp.getAsString "data" = .ok s →
      summHandle (summRaise m) cfg rng inp = (errorOutput m, 1)) ∧
    (∀ (rng : Nat) (inp : PyInput) (s : String) (m : String),
      inp.contentSize ≠ 0 → inp.getAsString "data" = .ok s →
      tcHandle (tcRaise m) rng inp = (errorOutput m, 1)) ∧
    (∀ (rng : Nat) (inp : PyInput) (s : String) (m : String),
      inp.contentSize ≠ 0 → inp.getAsString "data" = .ok s →
      ttiHandle (ttiRaise m) rng inp = (errorOutput m, 1)) ∧
    (∀ (rng : Nat) (inp : PyInput) (s : String) (m : String),
      inp.contentSize ≠ 0 → inp.getAsString "data" = .ok s →
      ttsHandle (ttsRaise m) rng inp = (errorOutput m, 1)) ∧
    (∀ (cfg : ZscConfig) (rng : Nat) (inp : PyInput) (s : String) (v t cl : PyVal) (m : String),
      inp.contentSize ≠ 0 → inp.getAsString "data" = .ok s → jsonLoads s = .ok v →
      pySub v (.int 0) = .ok t → pySlice1 v = .ok cl → pyTruthy cl = .ok true →
      zscHandle (zscRaise m) cfg rng inp = (errorOutput m, 1)) := by
  refine ⟨?_, ?_, ?_, ?_, ?_, ?_, ?_, ?_⟩ <;> intros <;>
    simp_all [asrHandle, asrRun, asrRaise, chatHandle, chatRun, chatRaise,
      qaHandle, qaRun, qaRaise, summHandle, summRun, summRaise, tcHandle,
      tcRun, tcRaise, ttiHandle, ttiRun, ttiRaise, ttsHandle, ttsRun,
      ttsRaise, zscHandle, zscRun, zscRaise, catchRun]

/-- C2 amended witness: each handler evaluated at a concrete decodable input
with a pipeline raising the message boom. -/
theorem c2_error_wrap_amended_witness :
    asrHandle (asrRaise "boom") 0 asrInput = (errorOutput "boom", 1) ∧
    chatHandle (chatRaise "boom") chatCfg 0 chatInput = (errorOutput "boom", 1) ∧
    qaHandle (qaRaise "boom") 0 qaInput = (errorOutput "boom", 1) ∧
    summHandle (summRaise "boom") summCfg 0 textInput = (errorOutput "boom", 1) ∧
    tcHandle (tcRaise "boom") 0 textInput = (errorOutput "boom", 1) ∧
    ttiHandle (ttiRaise "boom") 0 textInput = (errorOutput "boom", 1) ∧
    ttsHandle (ttsRaise "boom") 0 textInput = (errorOutput "boom", 1) ∧
    zscHandle (zscRaise "boom") zscCfgTop 0 zscInput = (errorOutput "boom", 1) := by
  have h := c2_error_wrap_amended
  refine ⟨h.1 0 asrInput "[0.1, 0.2]" (.list [.float 0.1, .float 0.2])
      ⟨[2], [0.1, 0.2]⟩ "boom" (by decide) rfl rfl ?_,
    h.2.1 chatCfg 0 chatInput "[]" (.list []) "boom" (by decide) rfl rfl,
    h.2.2.1 0 qaInput "\x7b\"question\": \"q\", \"context\": \"c\"\x7d"
      (.dict [("question", .str "q"), ("context", .str "c")]) (.str "q")
      (.str "c") "boom" (by decide) rfl rfl rfl rfl,
    h.2.2.2.1 summCfg 0 textInput "hello" "boom" (by decide) rfl,
    h.2.2.2.2.1 0 textInput "hello" "boom" (by decide) rfl,
    h.2.2.2.2.2.1 0 textInput "hello" "boom" (by decide) rfl,
    h.2.2.2.2.2.2.1 0 textInput "hello" "boom" (by decide) rfl,
    h.2.2.2.2.2.2.2 zscCfgTop 0 zscInput "[\"text\",\"label1\",\"label2\"]"
      (.list [.str "text", .str "label1", .str "label2"]) (.str "text")
      (.list [.str "label1", .str "label2"]) "boom" (by decide) rfl rfl rfl rfl rfl⟩
  simp [npOf, npShape, npFlat, Except.bind, Bind.bind]

/-! C3.  The text-to-speech audio rewrite. -/

/-- C3: evaluation of the text-to-speech handler at the failing input of the
claim.  np.squeeze removes only axes of length one, so for the capability
result with audio equal to the 2 by 2 nested array the encoded audio field
stays nested, differing from the flattened list the claim and the inline
comment (squeeze to 1D) promise; for a 1 by 4 array squeezing does produce
the flat list.  The code therefore contradicts its documented intent on the
2 by 2 input. -/
theorem c3_tts_squeeze_eval :
    ttsHandle (ttsConst ttsNestedResult) 0 textInput =
      (Output.empty.add (OutPart.json (.dict [("audio",
        .list [.list [.float 0.1, .float 0.2],
               .list [.float 0.3, .float 0.4]])])) "data", 1) ∧
    ttsHandle (ttsConst ttsRowResult) 0 textInput =
      (Output.empty.add (OutPart.json (.dict [("audio",
        .list [.float 0.1, .float 0.2, .float 0.3, .float 0.4])])) "data", 1) ∧
    (Output.empty.add (OutPart.json (.dict [("audio",
        .list [.list [.float 0.1, .float 0.2],
               .list [.float 0.3, .float 0.4]])])) "data" : Output) ≠
      Output.empty.add (OutPart.json (.dict [("audio",
        .list [.float 0.1, .float 0.2, .float 0.3, .float 0.4])])) "data" := by
  refine ⟨?_, ?_, ?_⟩
  · simp [ttsHandle, ttsRun, ttsConst, ttsAdjust, ttsNestedResult, pySub,
      npSqueeze, npOf, npShape, npFlat, NpArray.tolist, unflatten, prodL,
      dictSet, jsonOutPart, PyVal.serializable, catchRun, Except.bind,
      Bind.bind, List.range_succ, Output.add, Output.empty, textInput,
      PyInput.getAsString]
  · simp [ttsHandle, ttsRun, ttsConst, ttsAdjust, ttsRowResult, pySub,
      npSqueeze, npOf, npShape, npFlat, NpArray.tolist, unflatten, prodL,
      dictSet, jsonOutPart, PyVal.serializable, catchRun, Except.bind,
      Bind.bind, List.range_succ, Output.add, Output.empty, textInput,
      PyInput.getAsString]
  · intro h
    have h2 := congrArg audioHeadCtor h
    rw [show audioHeadCtor (Output.empty.add (OutPart.json (.dict [("audio",
        .list [.list [.float 0.1, .float 0.2],
               .list [.float 0.3, .float 0.4]])])) "data") = some 5 from rfl,
      show audioHeadCtor (Output.empty.add (OutPart.json (.dict [("audio",
        .list [.float 0.1, .float 0.2, .float 0.3, .float 0.4])])) "data") =
        some 3 from rfl] at h2
    exact absurd (Option.some.inj h2) (by decide)

/-! C4.  Zero-shot classification without candidate labels. -/

/-- C4: for every non-warmup request whose data part is a JSON array of fewer
than two elements, the zero-shot handler produces an error payload with a
non-empty message and never invokes the pipeline.  An empty array fails at
the text subscript with the IndexError message; a one-element array fails at
the explicit ValueError of the script. -/
theorem c4_zsc_missing_labels
    (pipe : ZscPipe) (cfg : ZscConfig) (rng : Nat) (inp : PyInput)
    (s : String) (xs : List PyVal)
    (h0 : inp.contentSize ≠ 0) (h1 : inp.getAsString "data" = .ok s)
    (h2 : jsonLoads s = .ok (.list xs)) (h3 : xs.length < 2) :
    ∃ m, m ≠ "" ∧ zscHandle pipe cfg rng inp = (errorOutput m, 0) := by
  rcases xs with _ | ⟨x, _ | ⟨y, rest⟩⟩
  · exact ⟨"list index out of range", by decide,
      by simp [zscHandle, zscRun, h0, h1, h2, pySub, catchRun]⟩
  · exact ⟨"At least one candidate label required for zero-shot", by decide,
      by simp [zscHandle, zscRun, h0, h1, h2, pySub, pySlice1, pyTruthy,
        catchRun]⟩
  · simp only [List.length_cons] at h3
    omega

/-- C4 witness: the concrete one-element input of section 8 of the design
document produces the ValueError payload without a pipeline call. -/
theorem c4_zsc_missing_labels_witness :
    ∃ m, m ≠ "" ∧
      zscHandle (zscRaise "x") zscCfgTop 0 zscInputOne = (errorOutput m, 0) :=
  c4_zsc_missing_labels (zscRaise "x") zscCfgTop 0 zscInputOne "[\"text\"]"
    [.str "text"] (by decide) rfl rfl (by decide)

/-! C5.  Zero-shot classification output selection. -/

/-- C5: on a successful zero-shot invocation, with returnTopLabelOnly true
the data part is exactly the first element of the labels list of the result,
emitted as a plain string part rather than JSON; with the switch false the
data part is the whole result as JSON. -/
theorem c5_zsc_top_label
    (pipe : ZscPipe) (cfg : ZscConfig) (rng : Nat) (inp : PyInput) (s : String)
    (v text cl result : PyVal)
    (h0 : inp.contentSize ≠ 0) (h1 : inp.getAsString "data" = .ok s)
    (h2 : jsonLoads s = .ok v) (ht : pySub v (.int 0) = .ok text)
    (hs : pySlice1 v = .ok cl) (htr : pyTruthy cl = .ok true)
    (hp : pipe 42 text cl cfg.multiLabel = .ok result) :
    (∀ (s0 : String) (rest : List PyVal), cfg.returnTopLabelOnly = true →
      pySub result (.str "labels") = .ok (.list (.str s0 :: rest)) →
      zscHandle pipe cfg rng inp =
        (Output.empty.add (OutPart.str s0) "data", 1)) ∧
    (cfg.returnTopLabelOnly = false → result.serializable = true →
      zscHandle pipe cfg rng inp =
        (Output.empty.add (OutPart.json result) "data", 1)) := by
  constructor
  · intro s0 rest hcfg hlab
    simp only [zscHandle, zscRun, zscSelect, h0, h1, h2, ht, hs, htr, hp,
      hcfg, hlab, if_false, ite_false, ite_true, Bool.not_true]
    simp [pySub, addPy, catchRun, h0]
  · intro hcfg hser
    simp [zscHandle, zscRun, zscSelect, h0, h1, h2, ht, hs, htr, hp, hcfg,
      jsonOutPart, hser, catchRun]

/-- C5 witness: the concrete input and capability result of section 8 of the
design document yield the plain string label2 with the switch on and the full
JSON result with the switch off. -/
theorem c5_zsc_top_label_witness :
    zscHandle (zscConst zscResult) zscCfgTop 0 zscInput =
      (Output.empty.add (OutPart.str "label2") "data", 1) ∧
    zscHandle (zscConst zscResult) zscCfgFull 0 zscInput =
      (Output.empty.add (OutPart.json zscResult) "data", 1) := by
  constructor
  · exact (c5_zsc_top_label (zscConst zscResult) zscCfgTop 0 zscInput
      "[\"text\",\"label1\",\"label2\"]"
      (.list [.str "text", .str "label1", .str "label2"]) (.str "text")
      (.list [.str "label1", .str "label2"]) zscResult (by decide) rfl rfl rfl
      rfl rfl rfl).1 "label2" [.str "label1"] rfl rfl
  · exact (c5_zsc_top_label (zscConst zscResult) zscCfgFull 0 zscInput
      "[\"text\",\"label1\",\"label2\"]"
      (.list [.str "text", .str "label1", .str "label2"]) (.str "text")
      (.list [.str "label1", .str "label2"]) zscResult (by decide) rfl rfl rfl
      rfl rfl rfl).2 rfl (by simp [zscResult, PyVal.serializable])

/-! C6.  Summarization encoding policy. -/

/-- C6 counterexample: for the pipeline result [5], whose first element lacks
the summary_text field, the handler does not emit the empty string: the
containment test summary_text in 5 raises a TypeError, so the response is an
error payload. -/
theorem c6_summary_counterexample :
    isErrorOutput (summHandle (summConst (.list [.int 5])) summCfg 0
      textInput).1 = true ∧
    (summHandle (summConst (.list [.int 5])) summCfg 0 textInput).1 ≠
      Output.empty.add (OutPart.str "") "data" := by
  refine ⟨rfl, fun h => ?_⟩
  have h2 := congrArg Output.dataKindIdx h
  rw [show Output.dataKindIdx (summHandle (summConst (.list [.int 5])) summCfg
      0 textInput).1 = some 2 from rfl,
    show Output.dataKindIdx (Output.empty.add (OutPart.str "") "data") =
      some 0 from rfl] at h2
  exact absurd (Option.some.inj h2) (by decide)

/-- C6 amended: the empty-string default holds for a result that is the empty
list, or is neither a list nor an ndarray, or is a list whose first element
is a dict lacking the summary_text field; and for a result whose first
element is a dict carrying summary_text with a string value s, the data part
is exactly s.  A non-dict first element can make the containment test or the
subscript raise instead, producing an ErrorPayload. -/
theorem c6_summary_amended
    (pipe : SummPipe) (cfg : SummConfig) (rng : Nat) (inp : PyInput)
    (s : String) (result : PyVal)
    (h0 : inp.contentSize ≠ 0) (h1 : inp.getAsString "data" = .ok s)
    (hp : pipe 42 s cfg = .ok result) :
    (result = .list [] →
      summHandle pipe cfg rng inp =
        (Output.empty.add (OutPart.str "") "data", 1)) ∧
    (result.isList = false → result.isNparr = false →
      summHandle pipe cfg rng inp =
        (Output.empty.add (OutPart.str "") "data", 1)) ∧
    (∀ (kvs : List (String × PyVal)) (rest : List PyVal),
      result = .list (.dict kvs :: rest) →
      kvs.any (fun kv => kv.1 == "summary_text") = false →
      summHandle pipe cfg rng inp =
        (Output.empty.add (OutPart.str "") "data", 1)) ∧
    (∀ (kvs : List (String × PyVal)) (rest : List PyVal) (t : String),
      result = .list (.dict kvs :: rest) →
      kvs.find? (fun kv => kv.1 == "summary_text") =
        some ("summary_text", .str t) →
      summHandle pipe cfg rng inp =
        (Output.empty.add (OutPart.str t) "data", 1)) := by
  refine ⟨?_, ?_, ?_, ?_⟩
  · intro hr
    subst hr
    simp [summHandle, summRun, summExtract, pyTruthy, h0, h1, hp, catchRun]
  · intro hl hn
    cases result <;>
      simp_all [summHandle, summRun, summExtract, pyTruthy, PyVal.isList,
        PyVal.isNparr, catchRun]
  · intro kvs rest hr hany
    subst hr
    simp [summHandle, summRun, summExtract, pyTruthy, pyIn, h0, h1, hp, hany,
      catchRun]
  · intro kvs rest t hr hf
    subst hr
    have hany : kvs.any (fun kv => kv.1 == "summary_text") = true := by
      rw [List.any_eq_true]
      exact ⟨("summary_text", .str t), List.mem_of_find?_eq_some hf,
        by simp⟩
    simp [summHandle, summRun, summExtract, pyTruthy, pyIn, pySub, h0, h1, hp,
      hany, hf, addPy, catchRun]

/-- C6 amended witness: the empty list gives the empty string, a dict result
gives the empty string, a first element without the field gives the empty
string, and the section 8 example gives the summary text x. -/
theorem c6_summary_amended_witness :
    summHandle (summConst (.list [])) summCfg 0 textInput =
      (Output.empty.add (OutPart.str "") "data", 1) ∧
    summHandle (summConst (.dict [("a", .int 1)])) summCfg 0 textInput =
      (Output.empty.add (OutPart.str "") "data", 1) ∧
    summHandle (summConst (.list [.dict [("other", .int 1)]])) summCfg 0
      textInput = (Output.empty.add (OutPart.str "") "data", 1) ∧
    summHandle (summConst (.list [.dict [("summary_text", .str "x")]])) summCfg
      0 textInput = (Output.empty.add (OutPart.str "x") "data", 1) := by
  refine ⟨(c6_summary_amended (summConst (.list [])) summCfg 0 textInput
      "hello" (.list []) (by decide) rfl rfl).1 rfl,
    (c6_summary_amended (summConst (.dict [("a", .int 1)])) summCfg 0 textInput
      "hello" (.dict [("a", .int 1)]) (by decide) rfl rfl).2.1 rfl rfl,
    (c6_summary_amended (summConst (.list [.dict [("other", .int 1)]])) summCfg
      0 textInput "hello" (.list [.dict [("other", .int 1)]]) (by decide) rfl
      rfl).2.2.1 [("other", .int 1)] [] rfl (by decide),
    (c6_summary_amended (summConst (.list [.dict [("summary_text", .str "x")]]))
      summCfg 0 textInput "hello" (.list [.dict [("summary_text", .str "x")]])
      (by decide) rfl rfl).2.2.2 [("summary_text", .str "x")] [] "x" rfl
      rfl⟩

/-! C7.  Text classification flattening. -/

/-- C7 counterexample: for the truthy non-sequence pipeline result 5, the
subscript result[0] inside the flattening test raises a TypeError, so the
handler emits an error payload instead of the JSON serialization of the
result unchanged. -/
theorem c7_textclass_counterexample :
    isErrorOutput (tcHandle (tcConst (.int 5)) 0 textInput).1 = true ∧
    (tcHandle (tcConst (.int 5)) 0 textInput).1 ≠
      Output.empty.add (OutPart.json (.int 5)) "data" := by
  refine ⟨rfl, fun h => ?_⟩
  have h2 := congrArg Output.dataJsonCtor h
  rw [show Output.dataJsonCtor (tcHandle (tcConst (.int 5)) 0 textInput).1 =
      some 6 from rfl,
    show Output.dataJsonCtor (Output.empty.add (OutPart.json (.int 5)) "data") =
      some 2 from rfl] at h2
  exact absurd (Option.some.inj h2) (by decide)

/-- C7 amended: a non-empty list result whose first element is a list is
flattened to that first inner list and serialized; a non-empty list result
whose first element is not a list, a falsy result, and a non-empty string
result are serialized unchanged.  A truthy result that is neither a sequence
nor a string raises at the subscript and yields an ErrorPayload, as the
counterexample 5 shows. -/
theorem c7_textclass_amended
    (pipe : TcPipe) (rng : Nat) (inp : PyInput) (s : String) (result : PyVal)
    (h0 : inp.contentSize ≠ 0) (h1 : inp.getAsString "data" = .ok s)
    (hp : pipe 42 s = .ok result) :
    (∀ (ys : List PyVal) (rest : List PyVal),
      result = .list (.list ys :: rest) →
      PyVal.serializable (.list ys) = true →
      tcHandle pipe rng inp =
        (Output.empty.add (OutPart.json (.list ys)) "data", 1)) ∧
    (∀ (x : PyVal) (rest : List PyVal), result = .list (x :: rest) →
      x.isList = false → result.serializable = true →
      tcHandle pipe rng inp =
        (Output.empty.add (OutPart.json result) "data", 1)) ∧
    (pyTruthy result = .ok false → result.serializable = true →
      tcHandle pipe rng inp =
        (Output.empty.add (OutPart.json result) "data", 1)) ∧
    (∀ (s2 : String), result = .str s2 → s2 ≠ "" →
      tcHandle pipe rng inp =
        (Output.empty.add (OutPart.json (.str s2)) "data", 1)) := by
  refine ⟨?_, ?_, ?_, ?_⟩
  · intro ys rest hr hser
    subst hr
    simp [tcHandle, tcRun, tcAdjust, pyTruthy, pySub, PyVal.isList,
      jsonOutPart, hser, h0, h1, hp, catchRun]
  · intro x rest hr hxl hser
    subst hr
    simp [tcHandle, tcRun, tcAdjust, pyTruthy, pySub, hxl, jsonOutPart, hser,
      h0, h1, hp, catchRun]
  · intro htr hser
    simp [tcHandle, tcRun, tcAdjust, htr, jsonOutPart, hser, h0, h1, hp,
      catchRun]
  · intro s2 hr hne
    subst hr
    have hbool : (s2 != "") = true := by simpa using hne
    rcases hchar : s2.toList with _ | ⟨c, cs⟩
    · exfalso
      apply hne
      cases s2 with
      | mk l =>
        cases l with
        | nil => rfl
        | cons a as => simp [String.toList] at hchar
    · have hdata : s2.data = c :: cs := by simpa [String.toList] using hchar
      simp [tcHandle, tcRun, tcAdjust, pyTruthy, pySub, PyVal.isList,
        jsonOutPart, PyVal.serializable, h0, h1, hp, catchRun, hbool, hdata]

/-- C7 amended witness: the section 8 nested result flattens to the inner
list; a flat list, the empty list and a plain string pass through
unchanged. -/
theorem c7_textclass_amended_witness :
    tcHandle (tcConst tcNested) 0 textInput =
      (Output.empty.add (OutPart.json tcInner) "data", 1) ∧
    tcHandle (tcConst tcInner) 0 textInput =
      (Output.empty.add (OutPart.json tcInner) "data", 1) ∧
    tcHandle (tcConst (.list [])) 0 textInput =
      (Output.empty.add (OutPart.json (.list [])) "data", 1) ∧
    tcHandle (tcConst (.str "ok")) 0 textInput =
      (Output.empty.add (OutPart.json (.str "ok")) "data", 1) := by
  refine ⟨?_, ?_, ?_, ?_⟩
  · have h := (c7_textclass_amended (tcConst tcNested) 0 textInput "hello"
      tcNested (by decide) rfl rfl).1
    exact h [.dict [("label", .str "A"), ("score", .float 0.9)],
        .dict [("label", .str "B"), ("score", .float 0.1)]] []
      (by simp [tcNested, tcInner]) (by simp [tcInner, PyVal.serializable])
  · exact (c7_textclass_amended (tcConst tcInner) 0 textInput "hello" tcInner
      (by decide) rfl rfl).2.1 (.dict [("label", .str "A"),
        ("score", .float 0.9)]) [.dict [("label", .str "B"),
        ("score", .float 0.1)]] (by simp [tcInner]) (by simp [PyVal.isList])
      (by simp [tcInner, PyVal.serializable])
  · exact (c7_textclass_amended (tcConst (.list [])) 0 textInput "hello"
      (.list []) (by decide) rfl rfl).2.2.1 (by simp [pyTruthy])
      (by simp [PyVal.serializable])
  · exact (c7_textclass_amended (tcConst (.str "ok")) 0 textInput "hello"
      (.str "ok") (by decide) rfl rfl).2.2.2 "ok" rfl (by decide)

/-! C8.  Question answering answer extraction. -/

/-- C8 counterexample: for the pipeline result 5, the containment test answer
in 5 raises a TypeError, so the handler emits an error payload rather than
the empty string the claim promises for every result lacking the answer
key. -/
theorem c8_qa_counterexample :
    isErrorOutput (qaHandle (qaConst (.int 5)) 0 qaInput).1 = true ∧
    (qaHandle (qaConst (.int 5)) 0 qaInput).1 ≠
      Output.empty.add (OutPart.str "") "data" := by
  refine ⟨rfl, fun h => ?_⟩
  have h2 := congrArg Output.dataKindIdx h
  rw [show Output.dataKindIdx (qaHandle (qaConst (.int 5)) 0 qaInput).1 =
      some 2 from rfl,
    show Output.dataKindIdx (Output.empty.add (OutPart.str "") "data") =
      some 0 from rfl] at h2
  exact absurd (Option.some.inj h2) (by decide)

/-- C8 amended: for every input decoding to an object with question and
context keys, when the pipeline result is a dict, a missing answer key yields
the empty string part and no error, and an answer key carrying a string value
yields exactly that string.  A non-dict result can instead raise in the
containment test, yielding an ErrorPayload, as the counterexample 5 shows. -/
theorem c8_qa_amended
    (pipe : QaPipe) (rng : Nat) (inp : PyInput) (s : String) (v q c : PyVal)
    (kvs : List (String × PyVal))
    (h0 : inp.contentSize ≠ 0) (h1 : inp.getAsString "data" = .ok s)
    (h2 : jsonLoads s = .ok v)
    (hq : pySub v (.str "question") = .ok q)
    (hc : pySub v (.str "context") = .ok c)
    (hp : pipe 42 q c = .ok (.dict kvs)) :
    (kvs.any (fun kv => kv.1 == "answer") = false →
      qaHandle pipe rng inp = (Output.empty.add (OutPart.str "") "data", 1)) ∧
    (∀ (t : String),
      kvs.find? (fun kv => kv.1 == "answer") = some ("answer", .str t) →
      qaHandle pipe rng inp = (Output.empty.add (OutPart.str t) "data", 1)) := by
  constructor
  · intro hany
    simp [qaHandle, qaRun, qaExtract, pyIn, h0, h1, h2, hq, hc, hp, hany,
      catchRun]
  · intro t hf
    have hany : kvs.any (fun kv => kv.1 == "answer") = true := by
      rw [List.any_eq_true]
      exact ⟨("answer", .str t), List.mem_of_find?_eq_some hf, by simp⟩
    simp only [qaHandle, qaRun, qaExtract, h1, h2, hq, hc, hp]
    simp [pyIn, pySub, hany, hf, addPy, catchRun, h0]

/-- C8 amended witness: the section 8 question and context input with a dict
result lacking the answer key gives the empty string; with an answer key it
gives the answer. -/
theorem c8_qa_amended_witness :
    qaHandle (qaConst (.dict [("score", .float 0.5)])) 0 qaInput =
      (Output.empty.add (OutPart.str "") "data", 1) ∧
    qaHandle (qaConst (.dict [("answer", .str "a")])) 0 qaInput =
      (Output.empty.add (OutPart.str "a") "data", 1) := by
  constructor
  · exact (c8_qa_amended (qaConst (.dict [("score", .float 0.5)])) 0 qaInput
      "\x7b\"question\": \"q\", \"context\": \"c\"\x7d"
      (.dict [("question", .str "q"), ("context", .str "c")]) (.str "q")
      (.str "c") [("score", .float 0.5)] (by decide) rfl rfl rfl rfl rfl).1
      (by decide)
  · exact (c8_qa_amended (qaConst (.dict [("answer", .str "a")])) 0 qaInput
      "\x7b\"question\": \"q\", \"context\": \"c\"\x7d"
      (.dict [("question", .str "q"), ("context", .str "c")]) (.str "q")
      (.str "c") [("answer", .str "a")] (by decide) rfl rfl rfl rfl rfl).2 "a"
      rfl

/-! C9.  Seeded determinism. -/

/-- C9: modelling each pipeline as a deterministic function of the seed state
and its arguments, every handler that calls torch.manual_seed(42) before its
single invocation, which is every handler except speech recognition, produces
a response independent of the ambient RNG state, so two calls on identical
non-warmup input and configuration agree; the speech recognition handler
never seeds, and its responses agree whenever its own pipeline ignores the
seed state, which is the no-randomness reading the design document gives it. -/
theorem c9_seed_determinism :
    (∀ (pipe : ChatPipe) (cfg : ChatConfig) (r1 r2 : Nat) (inp : PyInput),
      chatHandle pipe cfg r1 inp = chatHandle pipe cfg r2 inp) ∧
    (∀ (pipe : QaPipe) (r1 r2 : Nat) (inp : PyInput),
      qaHandle pipe r1 inp = qaHandle pipe r2 inp) ∧
    (∀ (pipe : SummPipe) (cfg : SummConfig) (r1 r2 : Nat) (inp : PyInput),
      summHandle pipe cfg r1 inp = summHandle pipe cfg r2 inp) ∧
    (∀ (pipe : TcPipe) (r1 r2 : Nat) (inp : PyInput),
      tcHandle pipe r1 inp = tcHandle pipe r2 inp) ∧
    (∀ (pipe : TtiPipe) (r1 r2 : Nat) (inp : PyInput),
      ttiHandle pipe r1 inp = ttiHandle pipe r2 inp) ∧
    (∀ (pipe : TtsPipe) (r1 r2 : Nat) (inp : PyInput),
      ttsHandle pipe r1 inp = ttsHandle pipe r2 inp) ∧
    (∀ (pipe : ZscPipe) (cfg : ZscConfig) (r1 r2 : Nat) (inp : PyInput),
      zscHandle pipe cfg r1 inp = zscHandle pipe cfg r2 inp) ∧
    (∀ (pipe : AsrPipe),
      (∀ (r1 r2 : Nat) (w : NpArray), pipe r1 w = pipe r2 w) →
      ∀ (r1 r2 : Nat) (inp : PyInput),
        asrHandle pipe r1 inp = asrHandle pipe r2 inp) := by
  refine ⟨fun _ _ _ _ _ => rfl, fun _ _ _ _ => rfl, fun _ _ _ _ _ => rfl,
    fun _ _ _ _ => rfl, fun _ _ _ _ => rfl, fun _ _ _ _ => rfl,
    fun _ _ _ _ _ => rfl, fun pipe hp r1 r2 inp => ?_⟩
  simp only [asrHandle, asrRun, hp r1 r2]

/-- C9 witness: two calls with different ambient RNG states agree for a
concrete pipeline, input and configuration of each handler; the speech
recognition conjunct is applied to a pipeline that ignores the seed. -/
theorem c9_seed_determinism_witness :
    chatHandle (chatConst (.list [])) chatCfg 0 chatInput =
      chatHandle (chatConst (.list [])) chatCfg 7 chatInput ∧
    qaHandle (qaConst (.dict [("answer", .str "a")])) 0 qaInput =
      qaHandle (qaConst (.dict [("answer", .str "a")])) 7 qaInput ∧
    summHandle (summConst (.list [])) summCfg 0 textInput =
      summHandle (summConst (.list [])) summCfg 7 textInput ∧
    tcHandle (tcConst (.list [])) 0 textInput =
      tcHandle (tcConst (.list [])) 7 textInput ∧
    ttiHandle (ttiRaise "x") 0 textInput = ttiHandle (ttiRaise "x") 7 textInput ∧
    ttsHandle (ttsConst ttsRowResult) 0 textInput =
      ttsHandle (ttsConst ttsRowResult) 7 textInput ∧
    zscHandle (zscConst zscResult) zscCfgTop 0 zscInput =
      zscHandle (zscConst zscResult) zscCfgTop 7 zscInput ∧
    asrHandle (asrRaise "x") 0 asrInput = asrHandle (asrRaise "x") 7 asrInput := by
  have h := c9_seed_determinism
  exact ⟨h.1 _ _ 0 7 _, h.2.1 _ 0 7 _, h.2.2.1 _ _ 0 7 _, h.2.2.2.1 _ 0 7 _,
    h.2.2.2.2.1 _ 0 7 _, h.2.2.2.2.2.1 _ 0 7 _, h.2.2.2.2.2.2.1 _ _ 0 7 _,
    h.2.2.2.2.2.2.2 (asrRaise "x") (fun _ _ _ => rfl) 0 7 asrInput⟩

/-! C10.  Encode-stage exceptions are also wrapped. -/

/-- C10: the try block spans the whole of handle for every task handler, so
an exception raised in the encode stage after a successful pipeline call is
also converted to an error payload instead of escaping or defaulting, always
after exactly one invocation.  Per handler: a text-to-speech result that is a
dict without the audio key yields the payload carrying str(KeyError) for
audio; a zero-shot result without the labels key under the top-label switch
yields the payload for labels; speech recognition and chat results that
json.dumps rejects yield the payload carrying the dumps message; a question
answering or summarization result whose extraction step raises yields the
payload for that exception; a text-classification result whose flattening
step or serialization raises yields the payload for that exception; and a
text-to-image result with an empty images list yields the IndexError
payload. -/
theorem c10_encode_errors_wrapped :
    (∀ (pipe : TtsPipe) (rng : Nat) (inp : PyInput) (s : String)
      (kvs : List (String × PyVal)),
      inp.contentSize ≠ 0 → inp.getAsString "data" = .ok s →
      pipe 42 s = .ok (.dict kvs) →
      kvs.any (fun kv => kv.1 == "audio") = false →
      ttsHandle pipe rng inp = (errorOutput "\x27audio\x27", 1)) ∧
    (∀ (pipe : ZscPipe) (cfg : ZscConfig) (rng : Nat) (inp : PyInput)
      (s : String) (v text cl : PyVal) (kvs : List (String × PyVal)),
      inp.contentSize ≠ 0 → inp.getAsString "data" = .ok s →
      jsonLoads s = .ok v → pySub v (.int 0) = .ok text →
      pySlice1 v = .ok cl → pyTruthy cl = .ok true →
      cfg.returnTopLabelOnly = true →
      pipe 42 text cl cfg.multiLabel = .ok (.dict kvs) →
      kvs.any (fun kv => kv.1 == "labels") = false →
      zscHandle pipe cfg rng inp = (errorOutput "\x27labels\x27", 1)) ∧
    (∀ (pipe : AsrPipe) (rng : Nat) (inp : PyInput) (s : String)
      (v result : PyVal) (w : NpArray) (m : String),
      inp.contentSize ≠ 0 → inp.getAsString "data" = .ok s →
      jsonLoads s = .ok v → npOf v = .ok w → pipe rng w = .ok result →
      jsonOutPart result = .error m →
      asrHandle pipe rng inp = (errorOutput m, 1)) ∧
    (∀ (pipe : ChatPipe) (cfg : ChatConfig) (rng : Nat) (inp : PyInput)
      (s : String) (v result : PyVal) (m : String),
      inp.contentSize ≠ 0 → inp.getAsString "data" = .ok s →
      jsonLoads s = .ok v → pipe 42 v cfg = .ok result →
      jsonOutPart result = .error m →
      chatHandle pipe cfg rng inp = (errorOutput m, 1)) ∧
    (∀ (pipe : QaPipe) (rng : Nat) (inp : PyInput) (s : String)
      (v q c result : PyVal) (m : String),
      inp.contentSize ≠ 0 → inp.getAsString "data" = .ok s →
      jsonLoads s = .ok v → pySub v (.str "question") = .ok q →
      pySub v (.str "context") = .ok c → pipe 42 q c = .ok result →
      qaExtract result = .error m →
      qaHandle pipe rng inp = (errorOutput m, 1)) ∧
    (∀ (pipe : SummPipe) (cfg : SummConfig) (rng : Nat) (inp : PyInput)
      (s : String) (result : PyVal) (m : String),
      inp.contentSize ≠ 0 → inp.getAsString "data" = .ok s →
      pipe 42 s cfg = .ok result → summExtract result = .error m →
      summHandle pipe cfg rng inp = (errorOutput m, 1)) ∧
    (∀ (pipe : TcPipe) (rng : Nat) (inp : PyInput) (s : String)
      (result : PyVal) (m : String),
      inp.contentSize ≠ 0 → inp.getAsString "data" = .ok s →
      pipe 42 s = .ok result →
      Except.bind (tcAdjust result) jsonOutPart = .error m →
      tcHandle pipe rng inp = (errorOutput m, 1)) ∧
    (∀ (pipe : TtiPipe) (rng : Nat) (inp : PyInput) (s : String)
      (res : TtiResult),
      inp.contentSize ≠ 0 → inp.getAsString "data" = .ok s →
      pipe 42 s = .ok res → res.images = [] →
      ttiHandle pipe rng inp = (errorOutput "list index out of range", 1)) := by
  refine ⟨?_, ?_, ?_, ?_, ?_, ?_, ?_, ?_⟩
  · intro pipe rng inp s kvs h0 h1 hp hk
    have hf : kvs.find? (fun kv => kv.1 == "audio") = Option.none := by
      rw [List.find?_eq_none]
      intro x hx hpx
      have ht : kvs.any (fun kv => kv.1 == "audio") = true := by
        rw [List.any_eq_true]
        exact ⟨x, hx, hpx⟩
      rw [hk] at ht
      exact absurd ht (by decide)
    simp [ttsHandle, ttsRun, ttsAdjust, pySub, hf, h0, h1, hp, catchRun]
  · intro pipe cfg rng inp s v text cl kvs h0 h1 h2 ht hs htr hcfg hp hk
    have hf : kvs.find? (fun kv => kv.1 == "labels") = Option.none := by
      rw [List.find?_eq_none]
      intro x hx hpx
      have ht2 : kvs.any (fun kv => kv.1 == "labels") = true := by
        rw [List.any_eq_true]
        exact ⟨x, hx, hpx⟩
      rw [hk] at ht2
      exact absurd ht2 (by decide)
    simp only [zscHandle, zscRun, zscSelect, h1, h2, ht, hs, htr, hp, hcfg]
    simp [pySub, hf, catchRun, h0]
  · intro pipe rng inp s v result w m h0 h1 h2 h3 hp he
    simp [asrHandle, asrRun, h0, h1, h2, h3, hp, he, catchRun]
  · intro pipe cfg rng inp s v result m h0 h1 h2 hp he
    simp [chatHandle, chatRun, h0, h1, h2, hp, he, catchRun]
  · intro pipe rng inp s v q c result m h0 h1 h2 hq hc hp he
    simp [qaHandle, qaRun, h0, h1, h2, hq, hc, hp, he, catchRun]
  · intro pipe cfg rng inp s result m h0 h1 hp he
    simp [summHandle, summRun, h0, h1, hp, he, catchRun]
  · intro pipe rng inp s result m h0 h1 hp he
    rcases hadj : tcAdjust result with e | r2
    · rw [hadj] at he
      simp only [Except.bind] at he
      cases he
      simp [tcHandle, tcRun, h0, h1, hp, hadj, catchRun]
    · rw [hadj] at he
      simp only [Except.bind] at he
      simp [tcHandle, tcRun, h0, h1, hp, hadj, he, catchRun]
  · intro pipe rng inp s res h0 h1 hp hres
    simp [ttiHandle, ttiRun, h0, h1, hp, hres, catchRun]

/-- C10 witness: a concrete encode-stage failure for each of the eight
handlers, each yielding its error payload after one invocation: missing
audio and labels keys, ndarray results that json.dumps rejects for speech
recognition and chat, a containment TypeError for question answering, an
ambiguous ndarray truthiness for summarization, a KeyError from the
flattening subscript for text classification, and an empty images list for
text to image. -/
theorem c10_encode_errors_wrapped_witness :
    ttsHandle (ttsConst (.dict [("x", .int 1)])) 0 textInput =
      (errorOutput "\x27audio\x27", 1) ∧
    zscHandle (zscConst (.dict [("scores", .list [])])) zscCfgTop 0 zscInput =
      (errorOutput "\x27labels\x27", 1) ∧
    asrHandle (asrConst (.nparr npStub)) 0 asrInput =
      (errorOutput "Object of type ndarray is not JSON serializable", 1) ∧
    chatHandle (chatConst (.dict [("out", .nparr npStub)])) chatCfg 0 chatInput =
      (errorOutput "Object of type ndarray is not JSON serializable", 1) ∧
    qaHandle (qaConst (.int 5)) 0 qaInput =
      (errorOutput "argument of type int is not iterable", 1) ∧
    summHandle (summConst (.nparr npStub2)) summCfg 0 textInput =
      (errorOutput "The truth value of an array with more than one element is ambiguous. Use a.any() or a.all()", 1) ∧
    tcHandle (tcConst (.dict [("a", .int 1)])) 0 textInput =
      (errorOutput "0", 1) ∧
    ttiHandle (ttiConst []) 0 textInput =
      (errorOutput "list index out of range", 1) := by
  have h := c10_encode_errors_wrapped
  refine ⟨h.1 (ttsConst (.dict [("x", .int 1)])) 0 textInput "hello"
      [("x", .int 1)] (by decide) rfl rfl (by decide),
    h.2.1 (zscConst (.dict [("scores", .list [])])) zscCfgTop 0 zscInput
      "[\"text\",\"label1\",\"label2\"]"
      (.list [.str "text", .str "label1", .str "label2"]) (.str "text")
      (.list [.str "label1", .str "label2"]) [("scores", .list [])]
      (by decide) rfl rfl rfl rfl rfl rfl rfl (by decide),
    h.2.2.1 (asrConst (.nparr npStub)) 0 asrInput "[0.1, 0.2]"
      (.list [.float 0.1, .float 0.2]) (.nparr npStub) ⟨[2], [0.1, 0.2]⟩
      "Object of type ndarray is not JSON serializable" (by decide) rfl rfl
      (by simp [npOf, npShape, npFlat, Except.bind, Bind.bind]) rfl
      (by simp [jsonOutPart, PyVal.serializable, npStub]),
    h.2.2.2.1 (chatConst (.dict [("out", .nparr npStub)])) chatCfg 0 chatInput
      "[]" (.list []) (.dict [("out", .nparr npStub)])
      "Object of type ndarray is not JSON serializable" (by decide) rfl rfl
      rfl (by simp [jsonOutPart, PyVal.serializable, npStub]),
    h.2.2.2.2.1 (qaConst (.int 5)) 0 qaInput
      "\x7b\"question\": \"q\", \"context\": \"c\"\x7d"
      (.dict [("question", .str "q"), ("context", .str "c")]) (.str "q")
      (.str "c") (.int 5) "argument of type int is not iterable" (by decide)
      rfl rfl rfl rfl rfl rfl,
    h.2.2.2.2.2.1 (summConst (.nparr npStub2)) summCfg 0 textInput "hello"
      (.nparr npStub2)
      "The truth value of an array with more than one element is ambiguous. Use a.any() or a.all()"
      (by decide) rfl rfl rfl,
    h.2.2.2.2.2.2.1 (tcConst (.dict [("a", .int 1)])) 0 textInput "hello"
      (.dict [("a", .int 1)]) "0" (by decide) rfl rfl rfl,
    h.2.2.2.2.2.2.2 (ttiConst []) 0 textInput "hello" ⟨[]⟩ (by decide) rfl rfl
      rfl⟩
